import Mathlib

/-!
Shallow embedding of the restaurant menu/order core of
`src/restaurant-food-ordering-system/main.py`: the pydantic models
(`FoodItemBase`, `FoodItem`, `OrderItem`, `Customer`, `Order`), the shared
`id_generator = count(1)`, the in-memory stores `menu_db` / `orders_db`, and
the route handlers that touch them.  Decimal currency values are embedded as
rationals (`ℚ`), which model Python `Decimal` arithmetic exactly; datetimes
are opaque integers.
-/

namespace Restaurant

/-- `FoodCategory` enum (main.py lines 12-17). -/
inductive FoodCategory
  | appetizer
  | main_course
  | dessert
  | beverage
  | salad
deriving DecidableEq, Repr

/-- The declared fields of `FoodItemBase` (main.py lines 19-29), before
validation. -/
structure FoodItemFields where
  name : String
  description : String
  category : FoodCategory
  price : ℚ
  is_available : Bool
  preparation_time : Int
  ingredients : List String
  calories : Option Int
  is_vegetarian : Bool
  is_spicy : Bool
deriving DecidableEq, Repr

/-- One character of the `validate_name` regex `^[a-zA-Z ]+$` (main.py line 34). -/
def nameCharOk (c : Char) : Bool :=
  ('a' ≤ c && c ≤ 'z') || ('A' ≤ c && c ≤ 'Z') || c == ' '

/-- `v.quantize(Decimal('0.01')) == v`: the value has at most two decimal
places, i.e. `100 * v` is an integer.  Since `q` is stored in lowest terms,
this holds exactly when its denominator divides 100 (main.py line 41). -/
def twoDp (q : ℚ) : Bool := 100 % q.den == 0

/-- All field-level checks of `FoodItemBase`: the `Field(...)` constraints of
lines 20-29 plus the `validate_name` regex (line 34) and the `validate_price`
checks (lines 41-44).  Pydantic runs them before the model validator. -/
def fieldChecks (f : FoodItemFields) : Bool :=
  decide (3 ≤ f.name.length) && decide (f.name.length ≤ 100) &&
  f.name.toList.all nameCharOk && !f.name.isEmpty &&
  decide (10 ≤ f.description.length) && decide (f.description.length ≤ 500) &&
  decide ((0 : ℚ) < f.price) && twoDp f.price &&
  decide ((1 : ℚ) ≤ f.price) && decide (f.price ≤ (100 : ℚ)) &&
  decide (1 ≤ f.preparation_time) && decide (f.preparation_time ≤ 120) &&
  decide (1 ≤ f.ingredients.length) &&
  (match f.calories with
   | none => true
   | some c => decide (0 < c))

/-- Cross-field rule 1 of `custom_validations` (main.py line 49):
category is dessert or beverage while `is_spicy` is set. -/
def spicyRuleViolated (f : FoodItemFields) : Bool :=
  (f.category == FoodCategory.dessert || f.category == FoodCategory.beverage) && f.is_spicy

/-- Cross-field rule 2 of `custom_validations` (main.py line 51):
calories present, vegetarian, and calories ≥ 800. -/
def caloriesRuleViolated (f : FoodItemFields) : Bool :=
  match f.calories with
  | none => false
  | some c => f.is_vegetarian && decide (800 ≤ c)

/-- Cross-field rule 3 of `custom_validations` (main.py line 53):
beverage with preparation time above 10 minutes. -/
def prepTimeRuleViolated (f : FoodItemFields) : Bool :=
  f.category == FoodCategory.beverage && decide (10 < f.preparation_time)

/-- Validation pipeline of `FoodItemBase`: field-level checks first, then the
`custom_validations` model validator (main.py lines 47-55), raising the
source's messages in source order; on success the model (its fields) is
returned unchanged. -/
def validateFoodItemBase (f : FoodItemFields) : Except String FoodItemFields :=
  if fieldChecks f = false then
    Except.error "field validation error"
  else if spicyRuleViolated f then
    Except.error "Desserts and beverages cannot be marked as spicy"
  else if caloriesRuleViolated f then
    Except.error "Vegetarian items should have calories < 800"
  else if prepTimeRuleViolated f then
    Except.error "Preparation time for beverages should be at most 10 minutes"
  else
    Except.ok f

/-- `FoodItem` (main.py lines 57-58): the validated base fields plus the
assigned `id`. -/
structure FoodItem extends FoodItemFields where
  id : Nat
deriving DecidableEq, Repr

/-- Computed field `price_category` (main.py lines 60-68). -/
def price_category (it : FoodItem) : String :=
  if it.price < 10 then "Budget"
  else if it.price ≤ 25 then "Mid-range"
  else "Premium"

/-- Computed field `dietary_info` (main.py lines 70-78): start from `[]`,
append `"Vegetarian"` if `is_vegetarian`, then `"Spicy"` if `is_spicy`. -/
def dietary_info (it : FoodItem) : List String :=
  (if it.is_vegetarian then ["Vegetarian"] else []) ++
  (if it.is_spicy then ["Spicy"] else [])

/-- `OrderStatus` enum (main.py lines 81-85). -/
inductive OrderStatus
  | pending
  | confirmed
  | ready
  | delivered
deriving DecidableEq, Repr

/-- `OrderItem` (main.py lines 87-91). -/
structure OrderItem where
  menu_item_id : Int
  menu_item_name : String
  quantity : Int
  unit_price : ℚ
deriving DecidableEq, Repr

/-- `OrderItem.item_total` (main.py lines 93-95): `unit_price * quantity`. -/
def item_total (oi : OrderItem) : ℚ :=
  oi.unit_price * (oi.quantity : ℚ)

/-- `Customer` (main.py lines 97-99). -/
structure Customer where
  name : String
  phone : String
deriving DecidableEq, Repr

/-- `Order` (main.py lines 102-108).  `total_price` is declared twice in the
class body: as an annotated field with constraints (line 105) and as a
same-named `@property` (lines 110-112).  Under pydantic v2 the property
rebinding overwrites the `Field(...)` object in the class namespace, field
collection then takes the property object as the field's default and deletes
the property from the class.  The net effect, which this structure embeds:
`total_price` is a stored, effectively optional field with no constraints;
reads return the caller-supplied stored value, and `none` models the omitted
case, where the stored default is the leftover property object rather than a
number.  The sum-computing property body never executes.  The model declares
no `id` field.  Datetimes are opaque. -/
structure Order where
  customer : Customer
  items : List OrderItem
  total_price : Option ℚ
  status : OrderStatus
  created_at : Int
  updated_at : Int
deriving DecidableEq, Repr

/-- The `order_total` property (main.py lines 114-116):
`sum(item.item_total for item in self.items)`.  Unlike `total_price`, this
name clashes with no field, so the property survives and computes the sum. -/
def order_total (o : Order) : ℚ :=
  (o.items.map item_total).sum

/-- The `order_status` property (main.py lines 118-120). -/
def order_status (o : Order) : OrderStatus :=
  o.status

/-- One digit of the `phone` pattern `^\d{10}$` (main.py line 99). -/
def digitOk (c : Char) : Bool := '0' ≤ c && c ≤ '9'

/-- `Customer` field constraints (main.py lines 98-99). -/
def customerChecks (c : Customer) : Bool :=
  decide (3 ≤ c.name.length) && decide (c.name.length ≤ 100) &&
  c.phone.length == 10 && c.phone.toList.all digitOk

/-- `OrderItem` field constraints (main.py lines 88-91): positive
`menu_item_id`, name 1-100 chars, quantity in (0,10], `unit_price` positive
with at most 2 decimal places and at most 6 digits in total (with 2 of them
decimal places, that bounds the value below 10000). -/
def orderItemChecks (oi : OrderItem) : Bool :=
  decide (0 < oi.menu_item_id) &&
  decide (1 ≤ oi.menu_item_name.length) && decide (oi.menu_item_name.length ≤ 100) &&
  decide (0 < oi.quantity) && decide (oi.quantity ≤ 10) &&
  decide ((0 : ℚ) < oi.unit_price) && twoDp oi.unit_price &&
  decide (oi.unit_price < (10000 : ℚ))

/-- `Order` validation as the program actually enforces it: customer checks
and a non-empty item list with each item valid (main.py lines 102-104, 106).
The line-105 constraints on `total_price` (gt 0, 6 digits, 2 decimal places)
are dead: the `Field(...)` object carrying them is overwritten by the
same-named property in the class body, leaving the field unconstrained and
optional. -/
def orderChecks (o : Order) : Bool :=
  customerChecks o.customer &&
  !o.items.isEmpty && o.items.all orderItemChecks

/-- One call of `next(id_generator)` where `id_generator = count(1)`
(main.py line 127): returns the current value, the state advances by one. -/
def nextId (s : Nat) : Nat × Nat := (s, s + 1)

/-- `n` sequential `next(id_generator)` calls from counter state `s`:
the list of returned values and the final counter state. -/
def allocRun : Nat → Nat → List Nat × Nat
  | 0, s => ([], s)
  | Nat.succ n, s =>
    let v := nextId s
    let rest := allocRun n v.2
    (v.1 :: rest.1, rest.2)

/-- The whole in-process mutable state of main.py lines 125-127:
`menu_db`, `orders_db`, and the single shared `id_generator` counter. -/
structure AppState where
  menu_db : Nat → Option FoodItem
  orders_db : Nat → Option Order
  id_gen : Nat

/-- The state at process start: both stores empty, `count(1)` about to
yield `1`. -/
def initState : AppState where
  menu_db := fun _ => none
  orders_db := fun _ => none
  id_gen := 1

/-- The two error kinds the handlers surface: 404 and 422. -/
inductive ApiErr
  | notFound
  | invalidBody (msg : String)
deriving DecidableEq, Repr

/-- `GET /menu/{item_id}` (main.py lines 136-140). -/
def get_item (item_id : Nat) (st : AppState) : Except ApiErr FoodItem :=
  match st.menu_db item_id with
  | none => Except.error ApiErr.notFound
  | some it => Except.ok it

/-- `POST /menu` (main.py lines 142-147).  The request body is validated
before the handler runs; on success the handler draws `next(id_generator)`,
builds the `FoodItem`, and stores it under the new id. -/
def add_item (raw : FoodItemFields) (st : AppState) :
    Except ApiErr FoodItem × AppState :=
  match validateFoodItemBase raw with
  | Except.error e => (Except.error (ApiErr.invalidBody e), st)
  | Except.ok f =>
    let new_id := st.id_gen
    let new_item : FoodItem := { toFoodItemFields := f, id := new_id }
    (Except.ok new_item,
     { st with
        menu_db := fun k => if k = new_id then some new_item else st.menu_db k,
        id_gen := st.id_gen + 1 })

/-- `PUT /menu/{item_id}` (main.py lines 149-155): body validation happens
first (at request parsing), then the 404 check, then the stored item is
replaced wholesale under the same id. -/
def update_item (item_id : Nat) (raw : FoodItemFields) (st : AppState) :
    Except ApiErr FoodItem × AppState :=
  match validateFoodItemBase raw with
  | Except.error e => (Except.error (ApiErr.invalidBody e), st)
  | Except.ok f =>
    match st.menu_db item_id with
    | none => (Except.error ApiErr.notFound, st)
    | some _ =>
      let updated : FoodItem := { toFoodItemFields := f, id := item_id }
      (Except.ok updated,
       { st with
          menu_db := fun k => if k = item_id then some updated else st.menu_db k })

/-- `DELETE /menu/{item_id}` (main.py lines 157-162). -/
def delete_item (item_id : Nat) (st : AppState) :
    Except ApiErr String × AppState :=
  match st.menu_db item_id with
  | none => (Except.error ApiErr.notFound, st)
  | some _ =>
    (Except.ok "Item deleted",
     { st with
        menu_db := fun k => if k = item_id then none else st.menu_db k })

/-- `model_dump()` of a `FoodItem`: all declared fields plus the two
`computed_field`s `price_category` and `dietary_info`, which pydantic v2
includes in dumps. -/
structure FoodItemDump where
  id : Nat
  name : String
  description : String
  category : FoodCategory
  price : ℚ
  is_available : Bool
  preparation_time : Int
  ingredients : List String
  calories : Option Int
  is_vegetarian : Bool
  is_spicy : Bool
  price_category : String
  dietary_info : List String
deriving DecidableEq, Repr

def FoodItem.model_dump (it : FoodItem) : FoodItemDump where
  id := it.id
  name := it.name
  description := it.description
  category := it.category
  price := it.price
  is_available := it.is_available
  preparation_time := it.preparation_time
  ingredients := it.ingredients
  calories := it.calories
  is_vegetarian := it.is_vegetarian
  is_spicy := it.is_spicy
  price_category := price_category it
  dietary_info := dietary_info it

/-- Re-validating a dumped `FoodItem`: the declared fields go back through
the `FoodItemBase` pipeline; the computed-field entries are not model fields
and are ignored on input (pydantic default `extra` handling). -/
def FoodItem.model_validate (d : FoodItemDump) : Except String FoodItem :=
  let f : FoodItemFields :=
    { name := d.name
      description := d.description
      category := d.category
      price := d.price
      is_available := d.is_available
      preparation_time := d.preparation_time
      ingredients := d.ingredients
      calories := d.calories
      is_vegetarian := d.is_vegetarian
      is_spicy := d.is_spicy }
  match validateFoodItemBase f with
  | Except.error e => Except.error e
  | Except.ok f' => Except.ok { toFoodItemFields := f', id := d.id }

/-- `model_dump()` of an `Order`: its declared fields only — the surviving
plain `@property` accessors (`order_total`, `order_status`) are not
`computed_field`s and are not serialized; the stored `total_price` value from
the instance dict is dumped as-is (the leftover property-object default,
`none` here, included). -/
structure OrderDump where
  customer : Customer
  items : List OrderItem
  total_price : Option ℚ
  status : OrderStatus
  created_at : Int
  updated_at : Int
deriving DecidableEq, Repr

def Order.model_dump (o : Order) : OrderDump where
  customer := o.customer
  items := o.items
  total_price := o.total_price
  status := o.status
  created_at := o.created_at
  updated_at := o.updated_at

/-- Re-validating a dumped `Order` through the field constraints the program
actually enforces.  An explicitly supplied `total_price` must be a valid
decimal: a dump carrying the leftover property-object default (`none`) fails
type validation, because explicit inputs are validated even though the
unvalidated default was not. -/
def Order.model_validate (d : OrderDump) : Except String Order :=
  match d.total_price with
  | none => Except.error "total_price: input is not a valid decimal"
  | some q =>
    let o : Order :=
      { customer := d.customer
        items := d.items
        total_price := some q
        status := d.status
        created_at := d.created_at
        updated_at := d.updated_at }
    if orderChecks o = true then Except.ok o
    else Except.error "order validation error"

/-- The spec's Veggie Wrap scenario input (spec §8): a valid menu-item body. -/
def veggieWrapFields : FoodItemFields where
  name := "Veggie Wrap"
  description := "Fresh veggie wrap with hummus"
  category := FoodCategory.salad
  price := mkRat 850 100
  is_available := true
  preparation_time := 10
  ingredients := ["lettuce", "hummus"]
  calories := none
  is_vegetarian := true
  is_spicy := false

/-- The spec's spicy-beverage scenario input (spec §8): beverage with
`is_spicy` set, every field-level check passing. -/
def spicyBeverageFields : FoodItemFields where
  name := "Iced Chai"
  description := "Spiced iced tea with milk"
  category := FoodCategory.beverage
  price := 4
  is_available := true
  preparation_time := 5
  ingredients := ["tea", "milk"]
  calories := some 120
  is_vegetarian := true
  is_spicy := true

/-- The state after creating the Veggie Wrap in a fresh process. -/
def stateAfterVeggieWrap : AppState :=
  (add_item veggieWrapFields initState).2

/-- The Veggie Wrap as stored: id 1 (first draw of `count(1)`). -/
def veggieWrapItem : FoodItem where
  toFoodItemFields := veggieWrapFields
  id := 1

/-- The order of the spec's total-price scenario: 3 × 9.99 and 1 × 0.01,
with the caller supplying the spec's expected total of 30.00 as the stored
`total_price` input. -/
def driftOrder : Order where
  customer := { name := "Bob Smith", phone := "1234567890" }
  items :=
    [ { menu_item_id := 1, menu_item_name := "Veggie Wrap", quantity := 3,
        unit_price := mkRat 999 100 },
      { menu_item_id := 2, menu_item_name := "Mint Sauce", quantity := 1,
        unit_price := mkRat 1 100 } ]
  total_price := some (mkRat 3000 100)
  status := OrderStatus.pending
  created_at := 0
  updated_at := 0

/-- A program-valid order whose optional `total_price` was omitted, so the
stored value is the leftover property object (`none`). -/
def noTotalOrder : Order where
  customer := { name := "Ann Lee", phone := "0987654321" }
  items :=
    [ { menu_item_id := 1, menu_item_name := "Veggie Wrap", quantity := 2,
        unit_price := mkRat 850 100 } ]
  total_price := none
  status := OrderStatus.pending
  created_at := 0
  updated_at := 0

lemma spicyRuleViolated_iff (f : FoodItemFields) :
    spicyRuleViolated f = true ↔
      (f.category = FoodCategory.dessert ∨ f.category = FoodCategory.beverage) ∧
      f.is_spicy = true := by
  simp [spicyRuleViolated, Bool.or_eq_true, Bool.and_eq_true, beq_iff_eq]

lemma caloriesRuleViolated_iff (f : FoodItemFields) :
    caloriesRuleViolated f = true ↔
      f.is_vegetarian = true ∧ ∃ c, f.calories = some c ∧ 800 ≤ c := by
  cases hc : f.calories with
  | none => simp [caloriesRuleViolated, hc]
  | some c =>
    simp only [caloriesRuleViolated, hc, Bool.and_eq_true, decide_eq_true_eq,
      Option.some.injEq]
    constructor
    · rintro ⟨hv, hge⟩
      exact ⟨hv, c, rfl, hge⟩
    · rintro ⟨hv, c', hc', hge⟩
      exact ⟨hv, hc' ▸ hge⟩

lemma prepTimeRuleViolated_iff (f : FoodItemFields) :
    prepTimeRuleViolated f = true ↔
      f.category = FoodCategory.beverage ∧ 10 < f.preparation_time := by
  simp [prepTimeRuleViolated, Bool.and_eq_true, beq_iff_eq]

lemma validateFoodItemBase_isOk (f : FoodItemFields) :
    (validateFoodItemBase f).isOk =
      (fieldChecks f && !spicyRuleViolated f && !caloriesRuleViolated f &&
        !prepTimeRuleViolated f) := by
  unfold validateFoodItemBase
  cases hf : fieldChecks f <;> cases h1 : spicyRuleViolated f <;>
    cases h2 : caloriesRuleViolated f <;> cases h3 : prepTimeRuleViolated f <;>
    simp [hf, h1, h2, h3, Except.isOk, Except.toBool]

/-- Claim C1: given inputs passing all field-level checks, `MenuItem`
construction fails with a validation error if and only if one of the three
cross-field rules is violated (dessert/beverage marked spicy; vegetarian
with calories ≥ 800; beverage with preparation time > 10); every other
combination of valid field values succeeds. -/
theorem menu_item_cross_field_rules (f : FoodItemFields)
    (h : fieldChecks f = true) :
    (validateFoodItemBase f).isOk = false ↔
      ((f.category = FoodCategory.dessert ∨ f.category = FoodCategory.beverage) ∧
        f.is_spicy = true) ∨
      (f.is_vegetarian = true ∧ ∃ c, f.calories = some c ∧ 800 ≤ c) ∨
      (f.category = FoodCategory.beverage ∧ 10 < f.preparation_time) := by
  rw [validateFoodItemBase_isOk f, h]
  rw [← spicyRuleViolated_iff, ← caloriesRuleViolated_iff, ← prepTimeRuleViolated_iff]
  cases spicyRuleViolated f <;> cases caloriesRuleViolated f <;>
    cases prepTimeRuleViolated f <;> simp

/-- Witness for C1 at the spec's spicy-beverage scenario: all field-level
checks pass and construction fails because rule 1 is violated. -/
theorem menu_item_cross_field_rules_witness :
    (validateFoodItemBase spicyBeverageFields).isOk = false :=
  (menu_item_cross_field_rules spicyBeverageFields (by decide)).mpr
    (Or.inl (by decide))

/-- Claim C2 (evaluation of the code at the failing input): reading
`total_price` from the claim's example order returns the caller-supplied
stored value 30.00 — for any supplied value, reads return exactly that
value, never consulting the items — while the exact item sum (still
computed by the surviving `order_total` property) is 29.98, a different
number.  The sum-computing `total_price` property of lines 110-112 is
deleted by pydantic v2 field collection and never runs. -/
theorem total_price_read_is_stored_input :
    driftOrder.total_price = some (mkRat 3000 100) ∧
    order_total driftOrder = mkRat 2998 100 ∧
    mkRat 3000 100 ≠ mkRat 2998 100 ∧
    (∀ q : ℚ, ({ driftOrder with total_price := some q } : Order).total_price
      = some q) := by
  refine ⟨rfl, ?_, by decide, fun q => rfl⟩
  norm_num [order_total, driftOrder, item_total, Rat.mkRat_eq_div]

/-- The returned values and final counter of `n` calls from state `s`:
`[s, s+1, ..., s+n-1]`, counter left at `s + n`. -/
lemma allocRun_spec (n : Nat) : ∀ s : Nat,
    (allocRun n s).1 = List.range' s n ∧ (allocRun n s).2 = s + n := by
  induction n with
  | zero => intro s; simp [allocRun]
  | succ n ih =>
    intro s
    obtain ⟨h1, h2⟩ := ih (s + 1)
    refine ⟨?_, ?_⟩
    · simp only [allocRun, nextId, h1, List.range'_succ]
    · simp only [allocRun, nextId, h2]
      omega

/-- Claim C3: the identity allocator is a counter starting at 1 — for every
`N`, `N` sequential `next()` calls return exactly the list `[1, ..., N]`
(so the values are distinct, strictly increasing, and gap-free), and any
value returned by later calls is never one already returned. -/
theorem id_generator_sequence (N : Nat) :
    (allocRun N 1).1 = List.range' 1 N ∧
    (allocRun N 1).1.length = N ∧
    List.Pairwise (· < ·) (allocRun N 1).1 ∧
    (allocRun N 1).1.Nodup ∧
    (∀ M v, v ∈ (allocRun M (allocRun N 1).2).1 → v ∉ (allocRun N 1).1) := by
  obtain ⟨h1, h2⟩ := allocRun_spec N 1
  refine ⟨h1, by simp [h1], ?_, ?_, ?_⟩
  · rw [h1]; exact List.pairwise_lt_range' 1 N
  · rw [h1]; exact List.nodup_range' 1 N
  · intro M v hv hv'
    obtain ⟨hm1, _⟩ := allocRun_spec M (allocRun N 1).2
    rw [hm1, h2] at hv
    rw [h1] at hv'
    rw [List.mem_range'_1] at hv hv'
    omega

/-- Claim C4: for a validly constructed menu item, `price_category` is
"Budget" below 10, "Mid-range" from 10 to 25 inclusive, and "Premium"
above 25. -/
theorem price_category_buckets (it : FoodItem)
    (h : validateFoodItemBase it.toFoodItemFields = Except.ok it.toFoodItemFields) :
    (it.price < 10 → price_category it = "Budget") ∧
    (10 ≤ it.price → it.price ≤ 25 → price_category it = "Mid-range") ∧
    (25 < it.price → price_category it = "Premium") := by
  refine ⟨fun hlt => ?_, fun hge hle => ?_, fun hgt => ?_⟩
  · simp [price_category, hlt]
  · have h1 : ¬ it.price < 10 := by linarith
    simp [price_category, h1, hle]
  · have h1 : ¬ it.price < 10 := by linarith
    have h2 : ¬ it.price ≤ 25 := by linarith
    simp [price_category, h1, h2]

/-- Witness for C4 at the spec's Veggie Wrap scenario: price 8.50 gives
"Budget". -/
theorem price_category_buckets_witness :
    price_category veggieWrapItem = "Budget" :=
  (price_category_buckets veggieWrapItem (by rfl)).1 (by decide)

/-- Claim C5: for a validly constructed menu item, `dietary_info` appends
"Vegetarian" then "Spicy" per flag, in that fixed order, and contains
nothing else. -/
theorem dietary_info_appending (it : FoodItem)
    (h : validateFoodItemBase it.toFoodItemFields = Except.ok it.toFoodItemFields) :
    (it.is_vegetarian = true → it.is_spicy = true →
      dietary_info it = ["Vegetarian", "Spicy"]) ∧
    (it.is_vegetarian = true → it.is_spicy = false →
      dietary_info it = ["Vegetarian"]) ∧
    (it.is_vegetarian = false → it.is_spicy = true →
      dietary_info it = ["Spicy"]) ∧
    (it.is_vegetarian = false → it.is_spicy = false →
      dietary_info it = []) := by
  refine ⟨fun hv hs => ?_, fun hv hs => ?_, fun hv hs => ?_, fun hv hs => ?_⟩ <;>
    simp [dietary_info, hv, hs]

/-- Witness for C5 at the spec's Veggie Wrap scenario: vegetarian and not
spicy gives exactly ["Vegetarian"]. -/
theorem dietary_info_appending_witness :
    dietary_info veggieWrapItem = ["Vegetarian"] :=
  (dietary_info_appending veggieWrapItem (by rfl)).2.1 (by decide) (by decide)

/-- Claim C7: store lookup returns the entity stored under an id when
present and fails with NotFound when absent; delete removes the entry when
present and fails with NotFound when absent; in particular a lookup in the
fresh (never-created) store is NotFound. -/
theorem store_get_delete_contract (st : AppState) (k : Nat) :
    (∀ it, st.menu_db k = some it →
      get_item k st = Except.ok it ∧
      (delete_item k st).1 = Except.ok "Item deleted" ∧
      (delete_item k st).2.menu_db k = none) ∧
    (st.menu_db k = none →
      get_item k st = Except.error ApiErr.notFound ∧
      delete_item k st = (Except.error ApiErr.notFound, st)) ∧
    (∀ i, get_item i initState = Except.error ApiErr.notFound) := by
  refine ⟨fun it hit => ?_, fun hnone => ?_, fun i => ?_⟩
  · refine ⟨?_, ?_, ?_⟩ <;> simp [get_item, delete_item, hit]
  · exact ⟨by simp [get_item, hnone], by simp [delete_item, hnone]⟩
  · simp [get_item, initState]

/-- Witness for C7: after creating the Veggie Wrap, id 1 is found, id 2 is
NotFound, and deleting id 1 removes it. -/
theorem store_get_delete_contract_witness :
    get_item 1 stateAfterVeggieWrap = Except.ok veggieWrapItem ∧
    get_item 2 stateAfterVeggieWrap = Except.error ApiErr.notFound ∧
    (delete_item 1 stateAfterVeggieWrap).2.menu_db 1 = none :=
  ⟨((store_get_delete_contract stateAfterVeggieWrap 1).1 veggieWrapItem (by decide)).1,
   ((store_get_delete_contract stateAfterVeggieWrap 2).2.1 (by decide)).1,
   ((store_get_delete_contract stateAfterVeggieWrap 1).1 veggieWrapItem (by decide)).2.2⟩

/-- Claim C8: when validation of the request body fails, menu-item create
and update both abort with the validation error and leave the whole store
state unchanged — no partial item is stored and the previously stored item
remains. -/
theorem validation_failure_all_or_nothing (raw : FoodItemFields)
    (st : AppState) (e : String)
    (h : validateFoodItemBase raw = Except.error e) :
    (add_item raw st).1 = Except.error (ApiErr.invalidBody e) ∧
    (add_item raw st).2 = st ∧
    (∀ k, (update_item k raw st).1 = Except.error (ApiErr.invalidBody e) ∧
      (update_item k raw st).2 = st ∧
      (update_item k raw st).2.menu_db k = st.menu_db k) := by
  refine ⟨?_, ?_, fun k => ⟨?_, ?_, ?_⟩⟩ <;>
    first
      | (unfold add_item; rw [h])
      | (unfold update_item; rw [h])

/-- Witness for C8: adding or updating with the invalid spicy-beverage body
on the one-item store leaves the state — and the stored Veggie Wrap —
untouched. -/
theorem validation_failure_all_or_nothing_witness :
    (add_item spicyBeverageFields stateAfterVeggieWrap).2 = stateAfterVeggieWrap ∧
    (update_item 1 spicyBeverageFields stateAfterVeggieWrap).2.menu_db 1 =
      stateAfterVeggieWrap.menu_db 1 :=
  have h := validation_failure_all_or_nothing spicyBeverageFields
    stateAfterVeggieWrap "Desserts and beverages cannot be marked as spicy" (by rfl)
  ⟨h.2.1, (h.2.2 1).2.2⟩

/-- Counterexample to claim C9 as stated: `noTotalOrder` is program-valid
(the optional `total_price` was simply omitted), yet re-validating its own
dump fails — the dumped stored value is the leftover property-object
default, which does not pass decimal validation as an explicit input — so
the universal round-trip is false. -/
theorem serialize_roundtrip_fails_without_total :
    orderChecks noTotalOrder = true ∧
    Order.model_validate (Order.model_dump noTotalOrder) =
      Except.error "total_price: input is not a valid decimal" ∧
    Order.model_validate (Order.model_dump noTotalOrder) ≠
      Except.ok noTotalOrder := by
  refine ⟨by decide, rfl, fun h => ?_⟩
  have h2 : Order.model_validate (Order.model_dump noTotalOrder) =
      Except.error "total_price: input is not a valid decimal" := rfl
  rw [h2] at h
  exact Except.noConfusion h

lemma order_model_validate_dump (o : Order) (q : ℚ)
    (hq : o.total_price = some q) (ho : orderChecks o = true) :
    Order.model_validate (Order.model_dump o) = Except.ok o := by
  obtain ⟨c, its, tp, s, ca, ua⟩ := o
  obtain rfl : tp = some q := hq
  simp only [Order.model_dump, Order.model_validate]
  rw [if_pos ho]

/-- Claim C9 (amended: restricted to orders whose optional `total_price`
was explicitly supplied — an order constructed without it stores the
leftover property-object default and fails to re-validate its own dump):
serializing a valid `MenuItem`, or a valid `Order` carrying a supplied
`total_price` value, and re-validating the dump yields the original entity
back, and the derived fields of the round-tripped entity re-derive to the
same values. -/
theorem serialize_roundtrip (it : FoodItem) (o : Order) (q : ℚ)
    (hit : validateFoodItemBase it.toFoodItemFields = Except.ok it.toFoodItemFields)
    (ho : orderChecks o = true) (hq : o.total_price = some q) :
    FoodItem.model_validate (FoodItem.model_dump it) = Except.ok it ∧
    Order.model_validate (Order.model_dump o) = Except.ok o ∧
    (∀ it2, FoodItem.model_validate (FoodItem.model_dump it) = Except.ok it2 →
      price_category it2 = price_category it ∧ dietary_info it2 = dietary_info it) ∧
    (∀ o2, Order.model_validate (Order.model_dump o) = Except.ok o2 →
      o2.total_price = o.total_price ∧
      order_total o2 = order_total o ∧ order_status o2 = order_status o) := by
  have h1 : FoodItem.model_validate (FoodItem.model_dump it) = Except.ok it := by
    have hform : FoodItem.model_validate (FoodItem.model_dump it) =
        match validateFoodItemBase it.toFoodItemFields with
        | Except.error e => Except.error e
        | Except.ok f' => Except.ok { toFoodItemFields := f', id := it.id } := rfl
    rw [hform, hit]
  have h2 := order_model_validate_dump o q hq ho
  refine ⟨h1, h2, fun it2 hit2 => ?_, fun o2 ho2 => ?_⟩
  · rw [h1] at hit2
    cases hit2
    exact ⟨rfl, rfl⟩
  · rw [h2] at ho2
    cases ho2
    exact ⟨rfl, rfl, rfl⟩

/-- Witness for C9 at the Veggie Wrap item and the drift order (whose
`total_price` input was supplied as 30.00). -/
theorem serialize_roundtrip_witness :
    FoodItem.model_validate (FoodItem.model_dump veggieWrapItem) =
      Except.ok veggieWrapItem ∧
    Order.model_validate (Order.model_dump driftOrder) = Except.ok driftOrder :=
  have h := serialize_roundtrip veggieWrapItem driftOrder (mkRat 3000 100)
    (by rfl) (by decide) (by rfl)
  ⟨h.1, h.2.1⟩

/-- Claim C10: every menu-store mutation addressed at an id — create with the
freshly allocated id, update of an id, delete of an id — leaves the entry at
every other id unchanged. -/
theorem store_mutation_frame (raw : FoodItemFields) (st : AppState)
    (k j : Nat) :
    (j ≠ st.id_gen → (add_item raw st).2.menu_db j = st.menu_db j) ∧
    (j ≠ k → (update_item k raw st).2.menu_db j = st.menu_db j) ∧
    (j ≠ k → (delete_item k st).2.menu_db j = st.menu_db j) := by
  refine ⟨fun hj => ?_, fun hj => ?_, fun hj => ?_⟩
  · unfold add_item
    cases hv : validateFoodItemBase raw with
    | error e => rfl
    | ok f => simp [hj]
  · unfold update_item
    cases hv : validateFoodItemBase raw with
    | error e => rfl
    | ok f =>
      cases hm : st.menu_db k with
      | none => rfl
      | some it => simp [hj]
  · unfold delete_item
    cases hm : st.menu_db k with
    | none => rfl
    | some it => simp [hj]

/-- Witness for C10: adding a second item, updating id 1, and deleting id 2
in the one-item store never touch the other id's entry. -/
theorem store_mutation_frame_witness :
    (add_item veggieWrapFields stateAfterVeggieWrap).2.menu_db 1 =
      stateAfterVeggieWrap.menu_db 1 ∧
    (update_item 2 veggieWrapFields stateAfterVeggieWrap).2.menu_db 1 =
      stateAfterVeggieWrap.menu_db 1 ∧
    (delete_item 2 stateAfterVeggieWrap).2.menu_db 1 =
      stateAfterVeggieWrap.menu_db 1 :=
  have h := store_mutation_frame veggieWrapFields stateAfterVeggieWrap 2 1
  ⟨h.1 (by decide), h.2.1 (by decide), h.2.2 (by decide)⟩

end Restaurant
